import Mathlib

/-!
# D-Bus binding layer (`dbus/dbus_libgio.go`): dispatch core and registration

A shallow embedding of the Go file `dbus_libgio.go`.

* Go strings are `String`.  `C.CString(s)` hands C a NUL-terminated copy of
  `s`: C reads it up to the first NUL byte (`CString`).  The three parameters
  of `handle_method_call_callback` are the contents of the C strings it
  receives, on which `C.GoString` is the identity.
* A handler (`MethodCallCallback`) is user code with side effects: it takes and
  returns the state `W` of everything outside the binding layer (explicit state
  passing), and it may call `RegisterMethodCallCallback` while it runs; the
  registrations it makes are listed, in order, next to its result.  Handlers
  are non-nil function values that return.
* The native library (GLib/GIO) is not part of the file; its entry points are
  the fields of `Native`, acting on the same outside state `W`.
* The Go map `MethodCallCallbacks` is a finite map from `string`; it is
  modelled by its lookup function `String → Option _` (`none`: key absent).
  The map is the one `init` makes (never the nil map).
-/

namespace dbus

/-! ## Values crossing the binding layer -/

/-- Go `interface{}` value as returned by a handler, by dynamic type. -/
inductive GoValue where
  | nil
  | string (v : String)
  | bool (v : Bool)
  | other (dynamicType : String)
deriving DecidableEq, Repr

/-- Non-nil Go `error` value; the Go `error` interface is `Option GoError`,
`none` being `nil`. -/
structure GoError where
  message : String
deriving DecidableEq, Repr

/-- Native `GError` as filled in by GLib. -/
structure GError where
  message : String
  domain : Nat
  code : Int
deriving DecidableEq, Repr

/-- Value of `*C.GVariant` built by the two C helpers of `dbus_libgio.go.h` from
the C string, or the `gboolean`, they are given; a nil pointer is
`none : Option GVariant`. -/
inductive GVariant where
  | g_variant_new_from_string (v : String)
  | g_variant_new_from_boolean (vbool : Nat)
deriving DecidableEq, Repr

/-- Go constant `GBusTypeSystem`. -/
def GBusTypeSystem : Nat := 1

/-- Go constant `GBusTypeSession`. -/
def GBusTypeSession : Nat := 2

/-- Go constant `DBusNameOwnerFlagsNone`. -/
def DBusNameOwnerFlagsNone : Nat := 0

/-- Go constant `DBusNameOwnerFlagsAllowReplacement`, `1 << 0`. -/
def DBusNameOwnerFlagsAllowReplacement : Nat := 1 <<< 0

/-- Go constant `DBusNameOwnerFlagsReplace`, `1 << 1`. -/
def DBusNameOwnerFlagsReplace : Nat := 1 <<< 1

/-- Go constant `DBusNameOwnerFlagsDoNotQueue`, `1 << 2`. -/
def DBusNameOwnerFlagsDoNotQueue : Nat := 1 <<< 2

/-- Opaque `Pointer` (`unsafe.Pointer`), by address; `0` is nil. -/
abbrev Pointer := Nat

/-- The C string `C.CString(s)` as C code reads it: the characters of `s` before
its first NUL. -/
def CString (s : String) : String :=
  String.mk (s.data.takeWhile (fun c => c.toNat != 0))

/-- One interface of a parsed introspection document (`GDBusInterfaceInfo`). -/
structure GDBusInterfaceInfo where
  name : String
  methods : List String
deriving DecidableEq, Repr

/-- Parsed introspection document (`GDBusNodeInfo`): `interfaces` is the
NULL-terminated array of the C struct, as a list. -/
structure GDBusNodeInfo where
  interfaces : List GDBusInterfaceInfo
deriving DecidableEq, Repr

/-- The type `MethodCallCallback`:
`func(objectPath, interfaceName, methodName string) (interface{}, error)`.
The body returns the result and error, the outside state it leaves, and the
calls `RegisterMethodCallCallback(path, interfaceName, method, callback)` it
made while running, in order. -/
inductive MethodCallCallback (W : Type) where
  | func (body : String → String → String → W →
      (GoValue × Option GoError) × W × List (String × String × String × MethodCallCallback W))

/-- Invocation `callback(objectPath, interfaceName, methodName)`. -/
def MethodCallCallback.call {W : Type} :
    MethodCallCallback W → String → String → String → W →
      (GoValue × Option GoError) × W × List (String × String × String × MethodCallCallback W)
  | MethodCallCallback.func body => body

/-- The Go struct `dbusAPILibGio`. -/
structure dbusAPILibGio (W : Type) where
  MethodCallCallbacks : String → Option (MethodCallCallback W)

/-- Entry points of the native library used by the file, and the package
function `ErrorFromNative` (declared in another file of the package; it turns a
native error into a Go error value).  `g_dbus_node_info_new_for_xml` either sets
the `GError` or returns the node info. Ids are C `guint` values. -/
structure Native (W : Type) where
  g_bus_own_name_on_connection : Pointer → String → Nat → W → Nat × W
  g_dbus_node_info_new_for_xml : String → Except GError GDBusNodeInfo
  g_dbus_connection_register_object :
    Pointer → String → Option GDBusInterfaceInfo → W → (Nat × Option GError) × W
  ErrorFromNative : GError → GoError

/-! ## The functions of `dbus_libgio.go` -/

/-- Go `keyForPathInterfaceNameAndMethod`. -/
def keyForPathInterfaceNameAndMethod (path : String) (interfaceName : String)
    (method : String) : String :=
  path ++ "/" ++ interfaceName ++ "." ++ method

/-- Go `init`: the package-level API object with an empty map. -/
def init {W : Type} : dbusAPILibGio W :=
  { MethodCallCallbacks := fun _ => none }

/-- Go `RegisterMethodCallCallback`: `d.MethodCallCallbacks[key] = callback`. -/
def RegisterMethodCallCallback {W : Type} (d : dbusAPILibGio W) (path : String)
    (interfaceName : String) (method : String) (callback : MethodCallCallback W) :
    dbusAPILibGio W :=
  let key := keyForPathInterfaceNameAndMethod path interfaceName method
  { d with MethodCallCallbacks :=
      fun k => if k = key then some callback else d.MethodCallCallbacks k }

/-- The calls to `RegisterMethodCallCallback` a handler made while running,
applied to the table in order. -/
def registerAll {W : Type} (d : dbusAPILibGio W) :
    List (String × String × String × MethodCallCallback W) → dbusAPILibGio W
  | [] => d
  | (path, interfaceName, method, callback) :: rest =>
    registerAll (RegisterMethodCallCallback d path interfaceName method callback) rest

/-- Go `handle_method_call_callback`, with `d` the object `GetDBusAPI()` returns.
The result is the reply pointer (`none`: nil), the outside state after the call,
and the table after the call: the function itself never writes the map, the
invoked handler may have. -/
def handle_method_call_callback {W : Type} (d : dbusAPILibGio W) (objectPath : String)
    (interfaceName : String) (methodName : String) (w : W) :
    Option GVariant × W × dbusAPILibGio W :=
  let key := keyForPathInterfaceNameAndMethod objectPath interfaceName methodName
  match d.MethodCallCallbacks key with
  | some callback =>
    match callback.call objectPath interfaceName methodName w with
    | ((result, err), w1, registrations) =>
      let d1 := registerAll d registrations
      match err with
      | some _ => (none, w1, d1)
      | none =>
        match result with
        | GoValue.string v => (some (GVariant.g_variant_new_from_string (CString v)), w1, d1)
        | GoValue.bool v =>
          let vbool : Nat := if v then 1 else 0
          (some (GVariant.g_variant_new_from_boolean vbool), w1, d1)
        | _ => (none, w1, d1)
  | none => (none, w, d)

/-- Go `BusOwnNameOnConnection`.  `cflags` is the conversion of the Go `uint`
to the 32-bit C enum; `gid` is a `guint`, which `uint(gid)` widens unchanged. -/
def BusOwnNameOnConnection {W : Type} (lib : Native W) (conn : Pointer) (name : String)
    (flags : Nat) (w : W) : (Nat × Option GoError) × W :=
  let gconn := conn
  let cname := CString name
  let cflags := flags % 2 ^ 32
  match lib.g_bus_own_name_on_connection gconn cname cflags w with
  | (gid, w1) =>
    if gid ≤ 0 then
      ((0, some ⟨"failed to own name on bus (gid = " ++ toString gid ++ ")"⟩), w1)
    else
      ((gid, none), w1)

/-- Go `BusRegisterInterface`.  `*nodeInfo.interfaces` is the first entry of the
NULL-terminated interface array (`none` when the array holds only the NULL). -/
def BusRegisterInterface {W : Type} (lib : Native W) (conn : Pointer) (path : String)
    (interfaceXML : String) (w : W) : (Nat × Option GoError) × W :=
  let introspection := CString interfaceXML
  match lib.g_dbus_node_info_new_for_xml introspection with
  | Except.error gerror => ((0, some (lib.ErrorFromNative gerror)), w)
  | Except.ok nodeInfo =>
    let gconn := conn
    let cpath := CString path
    match lib.g_dbus_connection_register_object gconn cpath nodeInfo.interfaces.head? w with
    | ((_, some gerror), w1) => ((0, some (lib.ErrorFromNative gerror)), w1)
    | ((gid, none), w1) =>
      if gid ≤ 0 then
        ((0, some ⟨"failed to register the object interface (gid = "
            ++ toString gid ++ ")"⟩), w1)
      else
        ((gid, none), w1)

/-! ## The process: the package-level API object and the calls made on it -/

/-- State of the process: the package-level `dbusAPI` object set by `init`,
and the state of everything outside the binding layer. -/
structure Process (W : Type) where
  dbusAPI : dbusAPILibGio W
  world : W

/-- A call into the file: one of the four operations, with its arguments. -/
inductive Call (W : Type) where
  | RegisterMethodCallCallback (path : String) (interfaceName : String) (method : String)
      (callback : MethodCallCallback W)
  | handle_method_call_callback (objectPath : String) (interfaceName : String)
      (methodName : String)
  | BusOwnNameOnConnection (conn : Pointer) (name : String) (flags : Nat)
  | BusRegisterInterface (conn : Pointer) (path : String) (interfaceXML : String)

/-- What a call returns to its caller. -/
inductive Returned where
  | unit
  | reply (r : Option GVariant)
  | id (r : Nat × Option GoError)
deriving DecidableEq, Repr

/-- The state at program start: `init` has run. -/
def Process.start {W : Type} (w : W) : Process W :=
  { dbusAPI := init, world := w }

/-- One call on the process: the value returned and the state afterwards.
`RegisterMethodCallCallback` writes the map of `dbusAPI`; after
`handle_method_call_callback` the map is the one the invoked handler left; the
two bus operations never touch it. -/
def Process.call {W : Type} (lib : Native W) (s : Process W) :
    Call W → Returned × Process W
  | Call.RegisterMethodCallCallback path interfaceName method callback =>
    (Returned.unit,
      { s with dbusAPI :=
          RegisterMethodCallCallback s.dbusAPI path interfaceName method callback })
  | Call.handle_method_call_callback objectPath interfaceName methodName =>
    let r := handle_method_call_callback s.dbusAPI objectPath interfaceName methodName s.world
    (Returned.reply r.1, { dbusAPI := r.2.2, world := r.2.1 })
  | Call.BusOwnNameOnConnection conn name flags =>
    let r := BusOwnNameOnConnection lib conn name flags s.world
    (Returned.id r.1, { s with world := r.2 })
  | Call.BusRegisterInterface conn path interfaceXML =>
    let r := BusRegisterInterface lib conn path interfaceXML s.world
    (Returned.id r.1, { s with world := r.2 })

/-- A sequence of calls, one after the other. -/
def Process.run {W : Type} (lib : Native W) (s : Process W) : List (Call W) → Process W
  | [] => s
  | c :: cs => Process.run lib (Process.call lib s c).2 cs

/-- The registrations the handler found by a dispatch makes while it runs (none
when no handler is found). -/
def handlerRegistrations {W : Type} (d : dbusAPILibGio W) (objectPath : String)
    (interfaceName : String) (methodName : String) (w : W) :
    List (String × String × String × MethodCallCallback W) :=
  match d.MethodCallCallbacks
      (keyForPathInterfaceNameAndMethod objectPath interfaceName methodName) with
  | some callback => (callback.call objectPath interfaceName methodName w).2.2
  | none => []

/-- The triple of a registration. -/
def tripleOf {W : Type} (r : String × String × String × MethodCallCallback W) :
    String × String × String :=
  (r.1, r.2.1, r.2.2.1)

/-- The triples passed to `RegisterMethodCallCallback` during a call: by the
caller, or by the handler a dispatch invokes. -/
def Process.callRegistered {W : Type} (s : Process W) :
    Call W → List (String × String × String)
  | Call.RegisterMethodCallCallback path interfaceName method _ =>
    [(path, interfaceName, method)]
  | Call.handle_method_call_callback objectPath interfaceName methodName =>
    (handlerRegistrations s.dbusAPI objectPath interfaceName methodName s.world).map tripleOf
  | _ => []

/-- The triples passed to `RegisterMethodCallCallback` during a sequence of
calls, by callers and by invoked handlers. -/
def Process.runRegistered {W : Type} (lib : Native W) (s : Process W) :
    List (Call W) → List (String × String × String)
  | [] => []
  | c :: cs => s.callRegistered c ++ Process.runRegistered lib (Process.call lib s c).2 cs

/-- Dispatch key of a triple. -/
def keyOfTriple (t : String × String × String) : String :=
  keyForPathInterfaceNameAndMethod t.1 t.2.1 t.2.2

/-- A log of handler invocations: handler tag and the three strings received. -/
abbrev CallLog := List (String × String × String × String)

/-- A handler that appends its tag and arguments to the call log, makes the
given registrations and returns the given result and error. -/
def reentrantHandler (tag : String) (result : GoValue) (err : Option GoError)
    (registrations : List (String × String × String × MethodCallCallback CallLog)) :
    MethodCallCallback CallLog :=
  MethodCallCallback.func fun objectPath interfaceName methodName log =>
    ((result, err), log ++ [(tag, objectPath, interfaceName, methodName)], registrations)

/-- A handler that appends its tag and arguments to the call log, registers
nothing and returns the given result and error. -/
def recordingHandler (tag : String) (result : GoValue) (err : Option GoError) :
    MethodCallCallback CallLog :=
  reentrantHandler tag result err []

/-- A native library for the examples: own-name and register-object answer the
given ids and log the call, the parser rejects every document that does not end
with `>` (an unterminated tag). -/
def exampleLib (ownId : Nat) (regId : Nat) (regErr : Option GError) : Native CallLog where
  g_bus_own_name_on_connection := fun _ name _ log =>
    (ownId, log ++ [("own_name", name, "", "")])
  g_dbus_node_info_new_for_xml := fun xml =>
    if xml.data.getLast? = some '>' then
      Except.ok { interfaces := [{ name := "com.example.Test", methods := ["Ping"] }] }
    else
      Except.error { message := "malformed document", domain := 1, code := 2 }
  g_dbus_connection_register_object := fun _ path _ log =>
    ((regId, regErr), log ++ [("register_object", path, "", "")])
  ErrorFromNative := fun gerror => { message := gerror.message }

/-! ## Dispatch keys -/

/-- Splitting a list at a separator that occurs in neither tail is unique. -/
theorem append_cons_inj_of_not_mem {α : Type} (c : α) :
    ∀ (a b x y : List α), c ∉ x → c ∉ y → a ++ c :: x = b ++ c :: y → a = b ∧ x = y := by
  intro a
  induction a with
  | nil =>
    intro b x y hx _ h
    cases b with
    | nil => exact ⟨rfl, by simpa using h⟩
    | cons d b1 =>
      exfalso
      simp only [List.nil_append, List.cons_append, List.cons.injEq] at h
      exact hx (by rw [h.2]; simp)
  | cons e a1 ih =>
    intro b x y hx hy h
    cases b with
    | nil =>
      exfalso
      simp only [List.nil_append, List.cons_append, List.cons.injEq] at h
      exact hy (by rw [← h.2]; simp)
    | cons d b1 =>
      simp only [List.cons_append, List.cons.injEq] at h
      obtain ⟨h1, h2⟩ := ih b1 x y hx hy h.2
      exact ⟨by rw [h.1, h1], h2⟩

/-- The characters of a dispatch key. -/
theorem keyForPathInterfaceNameAndMethod_data (path interfaceName method : String) :
    (keyForPathInterfaceNameAndMethod path interfaceName method).data
      = (path.data ++ '/' :: interfaceName.data) ++ '.' :: method.data := by
  simp [keyForPathInterfaceNameAndMethod, String.data_append]

/-- Keys are injective on triples whose interface names hold no `/` and whose
method names hold no `.`. -/
theorem key_inj_of_separator_free (p1 i1 m1 p2 i2 m2 : String)
    (hi1 : '/' ∉ i1.data) (hi2 : '/' ∉ i2.data)
    (hm1 : '.' ∉ m1.data) (hm2 : '.' ∉ m2.data)
    (h : keyForPathInterfaceNameAndMethod p1 i1 m1
          = keyForPathInterfaceNameAndMethod p2 i2 m2) :
    p1 = p2 ∧ i1 = i2 ∧ m1 = m2 := by
  have hd := congrArg String.data h
  rw [keyForPathInterfaceNameAndMethod_data, keyForPathInterfaceNameAndMethod_data] at hd
  obtain ⟨hpi, hm⟩ := append_cons_inj_of_not_mem '.' _ _ _ _ hm1 hm2 hd
  obtain ⟨hp, hi⟩ := append_cons_inj_of_not_mem '/' _ _ _ _ hi1 hi2 hpi
  exact ⟨String.ext hp, String.ext hi, String.ext hm⟩

/-! ## C strings -/

/-- A string without a NUL character is read whole by C. -/
theorem CString_of_no_nul (s : String) (hs : ∀ c ∈ s.data, c.toNat ≠ 0) : CString s = s := by
  have h : s.data.takeWhile (fun c => c.toNat != 0) = s.data := by
    rw [List.takeWhile_eq_self_iff]
    intro c hc
    simpa using hs c hc
  simp only [CString, h]

/-! ## The dispatch table -/

/-- After a registration the key of the registered triple is bound to the
registered handler. -/
theorem lookup_register_self {W : Type} (d : dbusAPILibGio W) (path interfaceName method : String)
    (h : MethodCallCallback W) :
    (RegisterMethodCallCallback d path interfaceName method h).MethodCallCallbacks
        (keyForPathInterfaceNameAndMethod path interfaceName method) = some h := by
  simp [RegisterMethodCallCallback]

/-- A registration leaves the binding of every other key as it was. -/
theorem lookup_register_of_ne {W : Type} (d : dbusAPILibGio W)
    (path interfaceName method : String) (h : MethodCallCallback W) (k : String)
    (hk : k ≠ keyForPathInterfaceNameAndMethod path interfaceName method) :
    (RegisterMethodCallCallback d path interfaceName method h).MethodCallCallbacks k
      = d.MethodCallCallbacks k := by
  simp [RegisterMethodCallCallback, hk]

/-- A registration keeps every bound key bound. -/
theorem lookup_register_isSome {W : Type} (d : dbusAPILibGio W)
    (path interfaceName method : String) (h : MethodCallCallback W) (k : String)
    (hk : (d.MethodCallCallbacks k).isSome = true) :
    ((RegisterMethodCallCallback d path interfaceName method h).MethodCallCallbacks
      k).isSome = true := by
  simp only [RegisterMethodCallCallback]
  split
  · rfl
  · exact hk

/-- Registrations on other keys leave the binding of a key as it was. -/
theorem lookup_registerAll_of_ne {W : Type}
    (rs : List (String × String × String × MethodCallCallback W)) :
    ∀ (d : dbusAPILibGio W) (k : String), (∀ r ∈ rs, keyOfTriple (tripleOf r) ≠ k) →
      (registerAll d rs).MethodCallCallbacks k = d.MethodCallCallbacks k := by
  induction rs with
  | nil => intro d k _; rfl
  | cons r rs ih =>
    intro d k hk
    obtain ⟨path, interfaceName, method, callback⟩ := r
    simp only [registerAll]
    rw [ih _ k (fun r hr => hk r (List.mem_cons_of_mem _ hr))]
    have hne := hk (path, interfaceName, method, callback) (List.mem_cons_self _ _)
    exact lookup_register_of_ne d path interfaceName method callback k (fun e => hne e.symm)

/-- Registrations keep every bound key bound. -/
theorem lookup_registerAll_isSome {W : Type}
    (rs : List (String × String × String × MethodCallCallback W)) :
    ∀ (d : dbusAPILibGio W) (k : String), (d.MethodCallCallbacks k).isSome = true →
      ((registerAll d rs).MethodCallCallbacks k).isSome = true := by
  induction rs with
  | nil => intro d k hk; exact hk
  | cons r rs ih =>
    intro d k hk
    obtain ⟨path, interfaceName, method, callback⟩ := r
    simp only [registerAll]
    exact ih _ k (lookup_register_isSome d path interfaceName method callback k hk)

/-- Dispatch on a key that is not bound: nil reply, outside state and table
untouched. -/
theorem handle_of_lookup_none {W : Type} (d : dbusAPILibGio W)
    (objectPath interfaceName methodName : String) (w : W)
    (hk : d.MethodCallCallbacks
      (keyForPathInterfaceNameAndMethod objectPath interfaceName methodName) = none) :
    handle_method_call_callback d objectPath interfaceName methodName w = (none, w, d) := by
  simp [handle_method_call_callback, hk]

/-- Dispatch on a bound key leaves the outside state as one invocation of the
bound handler on the three strings leaves it. -/
theorem handle_world_of_lookup_some {W : Type} (d : dbusAPILibGio W)
    (objectPath interfaceName methodName : String) (w : W) (h : MethodCallCallback W)
    (hk : d.MethodCallCallbacks
      (keyForPathInterfaceNameAndMethod objectPath interfaceName methodName) = some h) :
    (handle_method_call_callback d objectPath interfaceName methodName w).2.1
      = (h.call objectPath interfaceName methodName w).2.1 := by
  simp only [handle_method_call_callback, hk]
  rcases h.call objectPath interfaceName methodName w with ⟨⟨result, err⟩, w1, rs⟩
  cases err with
  | some e => rfl
  | none => cases result <;> rfl

/-- The table after a dispatch is the table before with the registrations of
the invoked handler applied. -/
theorem handle_table {W : Type} (d : dbusAPILibGio W)
    (objectPath interfaceName methodName : String) (w : W) :
    (handle_method_call_callback d objectPath interfaceName methodName w).2.2
      = registerAll d (handlerRegistrations d objectPath interfaceName methodName w) := by
  simp only [handle_method_call_callback, handlerRegistrations]
  cases d.MethodCallCallbacks
      (keyForPathInterfaceNameAndMethod objectPath interfaceName methodName) with
  | none => rfl
  | some h =>
    dsimp only
    rcases h.call objectPath interfaceName methodName w with ⟨⟨result, err⟩, w1, rs⟩
    cases err with
    | some e => rfl
    | none => cases result <;> rfl

/-- The reply and the outside state after a dispatch depend on the table only
through the binding of the key. -/
theorem handle_congr_lookup {W : Type} (d1 d2 : dbusAPILibGio W)
    (objectPath interfaceName methodName : String) (w : W)
    (hk : d1.MethodCallCallbacks
        (keyForPathInterfaceNameAndMethod objectPath interfaceName methodName)
      = d2.MethodCallCallbacks
        (keyForPathInterfaceNameAndMethod objectPath interfaceName methodName)) :
    (handle_method_call_callback d1 objectPath interfaceName methodName w).1
        = (handle_method_call_callback d2 objectPath interfaceName methodName w).1
    ∧ (handle_method_call_callback d1 objectPath interfaceName methodName w).2.1
        = (handle_method_call_callback d2 objectPath interfaceName methodName w).2.1 := by
  simp only [handle_method_call_callback, hk]
  cases d2.MethodCallCallbacks
      (keyForPathInterfaceNameAndMethod objectPath interfaceName methodName) with
  | none => exact ⟨rfl, rfl⟩
  | some h =>
    dsimp only
    rcases h.call objectPath interfaceName methodName w with ⟨⟨result, err⟩, w1, rs⟩
    cases err with
    | some e => exact ⟨rfl, rfl⟩
    | none => cases result <;> exact ⟨rfl, rfl⟩

/-- A call keeps the binding of every key that no registration made during it
has. -/
theorem call_lookup_of_ne {W : Type} (lib : Native W) (s : Process W) (c : Call W)
    (k : String) (hk : ∀ t ∈ s.callRegistered c, keyOfTriple t ≠ k) :
    (Process.call lib s c).2.dbusAPI.MethodCallCallbacks k = s.dbusAPI.MethodCallCallbacks k := by
  cases c with
  | RegisterMethodCallCallback path interfaceName method callback =>
    have hne := hk (path, interfaceName, method) (by simp [Process.callRegistered])
    exact lookup_register_of_ne s.dbusAPI path interfaceName method callback k
      (fun e => hne e.symm)
  | handle_method_call_callback objectPath interfaceName methodName =>
    simp only [Process.call, handle_table]
    apply lookup_registerAll_of_ne
    intro r hr
    exact hk (tripleOf r) (by
      simp only [Process.callRegistered]
      exact List.mem_map_of_mem _ hr)
  | BusOwnNameOnConnection conn name flags => rfl
  | BusRegisterInterface conn path interfaceXML => rfl

/-- A sequence of calls keeps the binding of every key that no registration made
during it has. -/
theorem run_lookup_of_ne {W : Type} (lib : Native W) (cs : List (Call W)) :
    ∀ (s : Process W) (k : String),
      (∀ t ∈ Process.runRegistered lib s cs, keyOfTriple t ≠ k) →
      (Process.run lib s cs).dbusAPI.MethodCallCallbacks k = s.dbusAPI.MethodCallCallbacks k := by
  induction cs with
  | nil => intro s k _; rfl
  | cons c cs ih =>
    intro s k hk
    simp only [Process.runRegistered, List.mem_append] at hk
    simp only [Process.run]
    rw [ih _ k (fun t ht => hk t (Or.inr ht)),
      call_lookup_of_ne lib s c k (fun t ht => hk t (Or.inl ht))]

/-- A call keeps every bound key bound. -/
theorem call_lookup_isSome {W : Type} (lib : Native W) (s : Process W) (c : Call W)
    (k : String) (hk : (s.dbusAPI.MethodCallCallbacks k).isSome = true) :
    ((Process.call lib s c).2.dbusAPI.MethodCallCallbacks k).isSome = true := by
  cases c with
  | RegisterMethodCallCallback path interfaceName method callback =>
    exact lookup_register_isSome s.dbusAPI path interfaceName method callback k hk
  | handle_method_call_callback objectPath interfaceName methodName =>
    simp only [Process.call, handle_table]
    exact lookup_registerAll_isSome _ _ k hk
  | BusOwnNameOnConnection conn name flags => exact hk
  | BusRegisterInterface conn path interfaceXML => exact hk

/-- A sequence of calls keeps every bound key bound. -/
theorem run_lookup_isSome {W : Type} (lib : Native W) (cs : List (Call W)) :
    ∀ (s : Process W) (k : String), (s.dbusAPI.MethodCallCallbacks k).isSome = true →
      ((Process.run lib s cs).dbusAPI.MethodCallCallbacks k).isSome = true := by
  induction cs with
  | nil => intro s k hk; exact hk
  | cons c cs ih =>
    intro s k hk
    simp only [Process.run]
    exact ih _ k (call_lookup_isSome lib s c k hk)

/-- Running two sequences of calls one after the other. -/
theorem run_append {W : Type} (lib : Native W) (cs1 cs2 : List (Call W)) :
    ∀ s : Process W,
      Process.run lib s (cs1 ++ cs2) = Process.run lib (Process.run lib s cs1) cs2 := by
  induction cs1 with
  | nil => intro s; rfl
  | cons c cs ih => intro s; simp only [List.cons_append, Process.run]; exact ih _

/-- Registering twice on one triple is registering the second handler alone. -/
theorem register_register_same {W : Type} (d : dbusAPILibGio W)
    (path interfaceName method : String) (h1 h2 : MethodCallCallback W) :
    RegisterMethodCallCallback (RegisterMethodCallCallback d path interfaceName method h1)
        path interfaceName method h2
      = RegisterMethodCallCallback d path interfaceName method h2 := by
  simp only [RegisterMethodCallCallback]
  congr 1
  funext k
  by_cases hk : k = keyForPathInterfaceNameAndMethod path interfaceName method <;> simp [hk]

/-- C1: after `RegisterMethodCallCallback(path, interfaceName, method, h)` on any
table, dispatching the same three strings finds `h`, leaves the outside state
exactly as one invocation of `h` on those three strings leaves it, and gives
the same reply and outside state whatever other handlers the table holds; with
a handler that logs its invocations the log grows by exactly one entry, that of
`h` with the three strings; and a handler returning `true` for
`("/com/example/Test", "com.example.Test", "Ping")` yields the boolean reply 1. -/
theorem register_then_dispatch_invokes_handler :
    (∀ (W : Type) (d : dbusAPILibGio W) (path interfaceName method : String)
        (h : MethodCallCallback W) (w : W),
      (RegisterMethodCallCallback d path interfaceName method h).MethodCallCallbacks
          (keyForPathInterfaceNameAndMethod path interfaceName method) = some h
      ∧ (handle_method_call_callback (RegisterMethodCallCallback d path interfaceName method h)
            path interfaceName method w).2.1 = (h.call path interfaceName method w).2.1
      ∧ (handle_method_call_callback (RegisterMethodCallCallback d path interfaceName method h)
            path interfaceName method w).1
          = (handle_method_call_callback
              (RegisterMethodCallCallback init path interfaceName method h)
              path interfaceName method w).1
      ∧ (handle_method_call_callback (RegisterMethodCallCallback d path interfaceName method h)
            path interfaceName method w).2.1
          = (handle_method_call_callback
              (RegisterMethodCallCallback init path interfaceName method h)
              path interfaceName method w).2.1)
    ∧ (∀ (d : dbusAPILibGio CallLog) (path interfaceName method tag : String)
        (result : GoValue) (err : Option GoError) (log : CallLog),
      (handle_method_call_callback
          (RegisterMethodCallCallback d path interfaceName method
            (recordingHandler tag result err))
          path interfaceName method log).2.1
        = log ++ [(tag, path, interfaceName, method)])
    ∧ (∀ (d : dbusAPILibGio CallLog) (log : CallLog),
      handle_method_call_callback
          (RegisterMethodCallCallback d "/com/example/Test" "com.example.Test" "Ping"
            (recordingHandler "ping" (GoValue.bool true) none))
          "/com/example/Test" "com.example.Test" "Ping" log
        = (some (GVariant.g_variant_new_from_boolean 1),
            log ++ [("ping", "/com/example/Test", "com.example.Test", "Ping")],
            RegisterMethodCallCallback d "/com/example/Test" "com.example.Test" "Ping"
              (recordingHandler "ping" (GoValue.bool true) none))) := by
  refine ⟨?_, ?_, ?_⟩
  · intro W d path interfaceName method h w
    have hc := handle_congr_lookup (RegisterMethodCallCallback d path interfaceName method h)
      (RegisterMethodCallCallback init path interfaceName method h)
      path interfaceName method w (by rw [lookup_register_self, lookup_register_self])
    exact ⟨lookup_register_self d path interfaceName method h,
      handle_world_of_lookup_some _ path interfaceName method w h
        (lookup_register_self d path interfaceName method h),
      hc.1, hc.2⟩
  · intro d path interfaceName method tag result err log
    rw [handle_world_of_lookup_some _ path interfaceName method log _
        (lookup_register_self d path interfaceName method _)]
    rfl
  · intro d log
    simp only [handle_method_call_callback, lookup_register_self]
    rfl

/-- Counterexample to C2: only `("/com/example/Test", "com.example", "Test.Ping")`
was registered, yet dispatching the never-registered triple
`("/com/example/Test", "com.example.Test", "Ping")` finds that handler, invokes
it and replies. -/
theorem unregistered_triple_dispatched :
    ("/com/example/Test", "com.example.Test", "Ping") ∉
        Process.runRegistered (exampleLib 1 1 none) (Process.start [])
          [Call.RegisterMethodCallCallback "/com/example/Test" "com.example" "Test.Ping"
            (recordingHandler "h" (GoValue.bool true) none)]
    ∧ (handle_method_call_callback
        (Process.run (exampleLib 1 1 none) (Process.start [])
          [Call.RegisterMethodCallCallback "/com/example/Test" "com.example" "Test.Ping"
            (recordingHandler "h" (GoValue.bool true) none)]).dbusAPI
        "/com/example/Test" "com.example.Test" "Ping" []).1
      = some (GVariant.g_variant_new_from_boolean 1)
    ∧ (handle_method_call_callback
        (Process.run (exampleLib 1 1 none) (Process.start [])
          [Call.RegisterMethodCallCallback "/com/example/Test" "com.example" "Test.Ping"
            (recordingHandler "h" (GoValue.bool true) none)]).dbusAPI
        "/com/example/Test" "com.example.Test" "Ping" []).2.1
      = [("h", "/com/example/Test", "com.example.Test", "Ping")]
    ∧ (handle_method_call_callback
        (Process.run (exampleLib 1 1 none) (Process.start [])
          [Call.RegisterMethodCallCallback "/com/example/Test" "com.example" "Test.Ping"
            (recordingHandler "h" (GoValue.bool true) none)]).dbusAPI
        "/com/example/Test" "com.example.Test" "Ping" []).1 ≠ none := by
  have hk : keyForPathInterfaceNameAndMethod "/com/example/Test" "com.example.Test" "Ping"
      = keyForPathInterfaceNameAndMethod "/com/example/Test" "com.example" "Test.Ping" := by
    decide
  have hr : (handle_method_call_callback
        (Process.run (exampleLib 1 1 none) (Process.start [])
          [Call.RegisterMethodCallCallback "/com/example/Test" "com.example" "Test.Ping"
            (recordingHandler "h" (GoValue.bool true) none)]).dbusAPI
        "/com/example/Test" "com.example.Test" "Ping" []).1
      = some (GVariant.g_variant_new_from_boolean 1) := by
    simp only [Process.run, Process.call, Process.start, handle_method_call_callback, hk,
      lookup_register_self]
    rfl
  refine ⟨by decide, hr, ?_, ?_⟩
  · simp only [Process.run, Process.call, Process.start, handle_method_call_callback, hk,
      lookup_register_self]
    rfl
  · rw [hr]
    simp

/-- C2, amended: in the table reached from the initial one by any sequence of
calls, a triple whose dispatch key differs from the key of every triple passed
to `RegisterMethodCallCallback` (by a caller or by an invoked handler) is not
bound, and dispatching it returns the nil reply and leaves the outside state and
the table untouched (no handler runs); on the initial empty table every dispatch
does so; and so does dispatch on any table in which the key is not bound. -/
theorem dispatch_unbound_key_not_found {W : Type} (lib : Native W) (cs : List (Call W))
    (w0 : W) (objectPath interfaceName methodName : String) (w : W)
    (hcs : ∀ t ∈ Process.runRegistered lib (Process.start w0) cs,
      keyOfTriple t ≠ keyForPathInterfaceNameAndMethod objectPath interfaceName methodName) :
    (Process.run lib (Process.start w0) cs).dbusAPI.MethodCallCallbacks
        (keyForPathInterfaceNameAndMethod objectPath interfaceName methodName) = none
    ∧ handle_method_call_callback (Process.run lib (Process.start w0) cs).dbusAPI
        objectPath interfaceName methodName w
      = (none, w, (Process.run lib (Process.start w0) cs).dbusAPI)
    ∧ handle_method_call_callback init objectPath interfaceName methodName w = (none, w, init)
    ∧ (∀ d : dbusAPILibGio W,
        d.MethodCallCallbacks
            (keyForPathInterfaceNameAndMethod objectPath interfaceName methodName) = none →
          handle_method_call_callback d objectPath interfaceName methodName w = (none, w, d)) := by
  have h0 : (Process.run lib (Process.start w0) cs).dbusAPI.MethodCallCallbacks
      (keyForPathInterfaceNameAndMethod objectPath interfaceName methodName) = none := by
    rw [run_lookup_of_ne lib cs _ _ hcs]
    rfl
  exact ⟨h0, handle_of_lookup_none _ _ _ _ w h0,
    handle_of_lookup_none _ _ _ _ w rfl,
    fun d hd => handle_of_lookup_none d _ _ _ w hd⟩

/-- Witness of the amended C2: with only `Ping` registered, dispatching `Pong`
on the same object and interface is not found and logs no invocation. -/
theorem dispatch_unbound_key_not_found_witness :
    (handle_method_call_callback
        (Process.run (exampleLib 1 1 none) (Process.start [])
          [Call.RegisterMethodCallCallback "/com/example/Test" "com.example.Test" "Ping"
            (recordingHandler "ping" (GoValue.bool true) none)]).dbusAPI
        "/com/example/Test" "com.example.Test" "Pong" []).1 = none
    ∧ (handle_method_call_callback
        (Process.run (exampleLib 1 1 none) (Process.start [])
          [Call.RegisterMethodCallCallback "/com/example/Test" "com.example.Test" "Ping"
            (recordingHandler "ping" (GoValue.bool true) none)]).dbusAPI
        "/com/example/Test" "com.example.Test" "Pong" []).2.1 = [] := by
  have h := (dispatch_unbound_key_not_found (exampleLib 1 1 none)
    [Call.RegisterMethodCallCallback "/com/example/Test" "com.example.Test" "Ping"
      (recordingHandler "ping" (GoValue.bool true) none)]
    [] "/com/example/Test" "com.example.Test" "Pong" []
    (by
      intro t ht
      have ht1 : t = ("/com/example/Test", "com.example.Test", "Ping") := by
        simpa [Process.runRegistered, Process.callRegistered] using ht
      rw [ht1]
      decide)).2.1
  rw [h]
  exact ⟨rfl, rfl⟩

/-- Counterexample to C4: `Ping` is registered with handler `old`, then with
handler `new`; the triple is never registered again, but a later registration
of the different triple `("/com/example/Test", "com.example", "Test.Ping")`,
which has the same dispatch key, binds `old`; the later dispatch of `Ping`
invokes `old`, not `new`. -/
theorem reregistered_handler_replaced_through_collision :
    ("/com/example/Test", "com.example.Test", "Ping") ∉
        Process.runRegistered (exampleLib 1 1 none)
          { dbusAPI := RegisterMethodCallCallback
              (RegisterMethodCallCallback init "/com/example/Test" "com.example.Test" "Ping"
                (recordingHandler "old" (GoValue.string "old") none))
              "/com/example/Test" "com.example.Test" "Ping"
              (recordingHandler "new" (GoValue.string "new") none),
            world := [] }
          [Call.RegisterMethodCallCallback "/com/example/Test" "com.example" "Test.Ping"
            (recordingHandler "old" (GoValue.string "old") none)]
    ∧ (handle_method_call_callback
        (Process.run (exampleLib 1 1 none)
          { dbusAPI := RegisterMethodCallCallback
              (RegisterMethodCallCallback init "/com/example/Test" "com.example.Test" "Ping"
                (recordingHandler "old" (GoValue.string "old") none))
              "/com/example/Test" "com.example.Test" "Ping"
              (recordingHandler "new" (GoValue.string "new") none),
            world := [] }
          [Call.RegisterMethodCallCallback "/com/example/Test" "com.example" "Test.Ping"
            (recordingHandler "old" (GoValue.string "old") none)]).dbusAPI
        "/com/example/Test" "com.example.Test" "Ping" []).2.1
      = [("old", "/com/example/Test", "com.example.Test", "Ping")]
    ∧ (handle_method_call_callback
        (Process.run (exampleLib 1 1 none)
          { dbusAPI := RegisterMethodCallCallback
              (RegisterMethodCallCallback init "/com/example/Test" "com.example.Test" "Ping"
                (recordingHandler "old" (GoValue.string "old") none))
              "/com/example/Test" "com.example.Test" "Ping"
              (recordingHandler "new" (GoValue.string "new") none),
            world := [] }
          [Call.RegisterMethodCallCallback "/com/example/Test" "com.example" "Test.Ping"
            (recordingHandler "old" (GoValue.string "old") none)]).dbusAPI
        "/com/example/Test" "com.example.Test" "Ping" []).2.1
      ≠ [("new", "/com/example/Test", "com.example.Test", "Ping")] := by
  have hk : keyForPathInterfaceNameAndMethod "/com/example/Test" "com.example.Test" "Ping"
      = keyForPathInterfaceNameAndMethod "/com/example/Test" "com.example" "Test.Ping" := by
    decide
  have hr : (handle_method_call_callback
        (Process.run (exampleLib 1 1 none)
          { dbusAPI := RegisterMethodCallCallback
              (RegisterMethodCallCallback init "/com/example/Test" "com.example.Test" "Ping"
                (recordingHandler "old" (GoValue.string "old") none))
              "/com/example/Test" "com.example.Test" "Ping"
              (recordingHandler "new" (GoValue.string "new") none),
            world := [] }
          [Call.RegisterMethodCallCallback "/com/example/Test" "com.example" "Test.Ping"
            (recordingHandler "old" (GoValue.string "old") none)]).dbusAPI
        "/com/example/Test" "com.example.Test" "Ping" []).2.1
      = [("old", "/com/example/Test", "com.example.Test", "Ping")] := by
    simp only [Process.run, Process.call]
    rw [handle_world_of_lookup_some _ _ _ _ _
      (recordingHandler "old" (GoValue.string "old") none)
      (by rw [hk]; exact lookup_register_self _ _ _ _ _)]
    rfl
  refine ⟨by decide, hr, ?_⟩
  rw [hr]
  decide

/-- C4, amended: after `RegisterMethodCallCallback(t, h1)` then
`RegisterMethodCallCallback(t, h2)` the table is the one registering `h2` alone
gives; after any further calls during which no triple with the dispatch key of
`t` is registered (by a caller or by an invoked handler), the key is bound to
`h2`, dispatching `t` leaves the outside state as one invocation of `h2` leaves
it and gives the reply and outside state of a table that never held `h1`; and
registering the same handler twice gives the table registering it once gives.
Registration is a total function: it returns a table and no error. -/
theorem reregister_replaces_handler {W : Type} (lib : Native W) (d : dbusAPILibGio W)
    (path interfaceName method : String) (h1 h2 : MethodCallCallback W)
    (cs : List (Call W)) (w0 w : W)
    (hcs : ∀ t ∈ Process.runRegistered lib
        { dbusAPI := RegisterMethodCallCallback
            (RegisterMethodCallCallback d path interfaceName method h1)
            path interfaceName method h2,
          world := w0 } cs,
      keyOfTriple t ≠ keyForPathInterfaceNameAndMethod path interfaceName method) :
    RegisterMethodCallCallback (RegisterMethodCallCallback d path interfaceName method h1)
        path interfaceName method h2
      = RegisterMethodCallCallback d path interfaceName method h2
    ∧ (Process.run lib
          { dbusAPI := RegisterMethodCallCallback
              (RegisterMethodCallCallback d path interfaceName method h1)
              path interfaceName method h2,
            world := w0 } cs).dbusAPI.MethodCallCallbacks
        (keyForPathInterfaceNameAndMethod path interfaceName method) = some h2
    ∧ (handle_method_call_callback
          (Process.run lib
            { dbusAPI := RegisterMethodCallCallback
                (RegisterMethodCallCallback d path interfaceName method h1)
                path interfaceName method h2,
              world := w0 } cs).dbusAPI
          path interfaceName method w).2.1 = (h2.call path interfaceName method w).2.1
    ∧ (handle_method_call_callback
          (Process.run lib
            { dbusAPI := RegisterMethodCallCallback
                (RegisterMethodCallCallback d path interfaceName method h1)
                path interfaceName method h2,
              world := w0 } cs).dbusAPI
          path interfaceName method w).1
        = (handle_method_call_callback
            (RegisterMethodCallCallback init path interfaceName method h2)
            path interfaceName method w).1
    ∧ (handle_method_call_callback
          (Process.run lib
            { dbusAPI := RegisterMethodCallCallback
                (RegisterMethodCallCallback d path interfaceName method h1)
                path interfaceName method h2,
              world := w0 } cs).dbusAPI
          path interfaceName method w).2.1
        = (handle_method_call_callback
            (RegisterMethodCallCallback init path interfaceName method h2)
            path interfaceName method w).2.1
    ∧ RegisterMethodCallCallback (RegisterMethodCallCallback d path interfaceName method h2)
        path interfaceName method h2
      = RegisterMethodCallCallback d path interfaceName method h2 := by
  have hb : (Process.run lib
        { dbusAPI := RegisterMethodCallCallback
            (RegisterMethodCallCallback d path interfaceName method h1)
            path interfaceName method h2,
          world := w0 } cs).dbusAPI.MethodCallCallbacks
      (keyForPathInterfaceNameAndMethod path interfaceName method) = some h2 := by
    rw [run_lookup_of_ne lib cs _ _ hcs]
    exact lookup_register_self _ path interfaceName method h2
  have hc := handle_congr_lookup
    (Process.run lib
        { dbusAPI := RegisterMethodCallCallback
            (RegisterMethodCallCallback d path interfaceName method h1)
            path interfaceName method h2,
          world := w0 } cs).dbusAPI
    (RegisterMethodCallCallback init path interfaceName method h2)
    path interfaceName method w (by rw [hb, lookup_register_self])
  exact ⟨register_register_same d path interfaceName method h1 h2, hb,
    handle_world_of_lookup_some _ path interfaceName method w h2 hb, hc.1, hc.2,
    register_register_same d path interfaceName method h2 h2⟩

/-- Witness of the amended C4: `Ping` registered with handler `old` then with
handler `new`, a dispatch of `Ping` and a registration of `Pong` in between; a
later dispatch of `Ping` logs `new` only. -/
theorem reregister_replaces_handler_witness :
    (handle_method_call_callback
        (Process.run (exampleLib 1 1 none)
          { dbusAPI := RegisterMethodCallCallback
              (RegisterMethodCallCallback init "/com/example/Test" "com.example.Test" "Ping"
                (recordingHandler "old" (GoValue.string "old") none))
              "/com/example/Test" "com.example.Test" "Ping"
              (recordingHandler "new" (GoValue.string "new") none),
            world := [] }
          [Call.handle_method_call_callback "/com/example/Test" "com.example.Test" "Ping",
           Call.RegisterMethodCallCallback "/com/example/Test" "com.example.Test" "Pong"
            (recordingHandler "pong" (GoValue.bool false) none)]).dbusAPI
        "/com/example/Test" "com.example.Test" "Ping" []).2.1
      = [("new", "/com/example/Test", "com.example.Test", "Ping")] :=
  (reregister_replaces_handler (exampleLib 1 1 none) init
    "/com/example/Test" "com.example.Test" "Ping"
    (recordingHandler "old" (GoValue.string "old") none)
    (recordingHandler "new" (GoValue.string "new") none)
    [Call.handle_method_call_callback "/com/example/Test" "com.example.Test" "Ping",
     Call.RegisterMethodCallCallback "/com/example/Test" "com.example.Test" "Pong"
      (recordingHandler "pong" (GoValue.bool false) none)]
    [] []
    (by
      intro t ht
      have hl : handlerRegistrations
          (RegisterMethodCallCallback
            (RegisterMethodCallCallback init "/com/example/Test" "com.example.Test" "Ping"
              (recordingHandler "old" (GoValue.string "old") none))
            "/com/example/Test" "com.example.Test" "Ping"
            (recordingHandler "new" (GoValue.string "new") none))
          "/com/example/Test" "com.example.Test" "Ping" ([] : CallLog) = [] := by
        simp only [handlerRegistrations, lookup_register_self]
        rfl
      have ht1 : t = ("/com/example/Test", "com.example.Test", "Pong") := by
        simpa [Process.runRegistered, Process.callRegistered, hl] using ht
      rw [ht1]
      decide)).2.2.1

/-- Counterexample to C5: a bound handler returns the string `po`, a NUL
character, `ng` and no error; the reply is the variant of `po`, not of the
string the handler returned. -/
theorem string_reply_stops_at_nul :
    (recordingHandler "ping" (GoValue.string "po\x00ng") none).call
        "/com/example/Test" "com.example.Test" "Ping" []
      = ((GoValue.string "po\x00ng", none),
          [("ping", "/com/example/Test", "com.example.Test", "Ping")], [])
    ∧ (handle_method_call_callback
        (RegisterMethodCallCallback init "/com/example/Test" "com.example.Test" "Ping"
          (recordingHandler "ping" (GoValue.string "po\x00ng") none))
        "/com/example/Test" "com.example.Test" "Ping" []).1
      = some (GVariant.g_variant_new_from_string "po")
    ∧ (handle_method_call_callback
        (RegisterMethodCallCallback init "/com/example/Test" "com.example.Test" "Ping"
          (recordingHandler "ping" (GoValue.string "po\x00ng") none))
        "/com/example/Test" "com.example.Test" "Ping" []).1
      ≠ some (GVariant.g_variant_new_from_string "po\x00ng") := by
  have hr : (handle_method_call_callback
        (RegisterMethodCallCallback init "/com/example/Test" "com.example.Test" "Ping"
          (recordingHandler "ping" (GoValue.string "po\x00ng") none))
        "/com/example/Test" "com.example.Test" "Ping" []).1
      = some (GVariant.g_variant_new_from_string "po") := by
    simp only [handle_method_call_callback, lookup_register_self]
    rfl
  refine ⟨rfl, hr, ?_⟩
  rw [hr]
  decide

/-- C5, amended: for a handler bound to the key of the inbound call, the reply
is non-nil exactly when the handler returns a nil error and a string or a
boolean; it is then the variant of that string as C reads it, up to its first
NUL character (exactly that string when it holds none), or of exactly that
boolean with `true` as 1 and `false` as 0; when the handler returns an error
the reply is nil whatever result came with it, and so it is for a result of any
other kind. -/
theorem reply_iff_string_or_bool {W : Type} (d : dbusAPILibGio W)
    (objectPath interfaceName methodName : String) (w : W) (h : MethodCallCallback W)
    (hk : d.MethodCallCallbacks
      (keyForPathInterfaceNameAndMethod objectPath interfaceName methodName) = some h) :
    ((handle_method_call_callback d objectPath interfaceName methodName w).1 ≠ none
      ↔ (h.call objectPath interfaceName methodName w).1.2 = none
          ∧ ((∃ v, (h.call objectPath interfaceName methodName w).1.1 = GoValue.string v)
            ∨ (∃ v, (h.call objectPath interfaceName methodName w).1.1 = GoValue.bool v)))
    ∧ (∀ v, (h.call objectPath interfaceName methodName w).1 = (GoValue.string v, none) →
        (handle_method_call_callback d objectPath interfaceName methodName w).1
          = some (GVariant.g_variant_new_from_string (CString v)))
    ∧ (∀ v, (h.call objectPath interfaceName methodName w).1 = (GoValue.string v, none) →
        (∀ c ∈ v.data, c.toNat ≠ 0) →
        (handle_method_call_callback d objectPath interfaceName methodName w).1
          = some (GVariant.g_variant_new_from_string v))
    ∧ ((h.call objectPath interfaceName methodName w).1 = (GoValue.bool true, none) →
        (handle_method_call_callback d objectPath interfaceName methodName w).1
          = some (GVariant.g_variant_new_from_boolean 1))
    ∧ ((h.call objectPath interfaceName methodName w).1 = (GoValue.bool false, none) →
        (handle_method_call_callback d objectPath interfaceName methodName w).1
          = some (GVariant.g_variant_new_from_boolean 0))
    ∧ ((h.call objectPath interfaceName methodName w).1.2 ≠ none →
        (handle_method_call_callback d objectPath interfaceName methodName w).1 = none)
    ∧ ((∀ v, (h.call objectPath interfaceName methodName w).1.1 ≠ GoValue.string v) →
        (∀ v, (h.call objectPath interfaceName methodName w).1.1 ≠ GoValue.bool v) →
        (handle_method_call_callback d objectPath interfaceName methodName w).1 = none) := by
  simp only [handle_method_call_callback, hk]
  rcases h.call objectPath interfaceName methodName w with ⟨⟨result, err⟩, w1, rs⟩
  cases err with
  | some e => simp
  | none =>
    cases result with
    | nil => simp
    | string v =>
      simp only [ne_eq, reduceCtorEq, not_false_eq_true, GoValue.string.injEq, exists_eq',
        or_false, and_self, Prod.mk.injEq, and_true, Option.some.injEq,
        GVariant.g_variant_new_from_string.injEq, forall_eq', true_and, IsEmpty.forall_iff,
        not_true_eq_false, exists_false, forall_const, false_implies, implies_true]
      intro hv
      exact CString_of_no_nul v hv
    | bool v => cases v <;> simp
    | other t => simp

/-- Witness of the amended C5: a bound handler that returns the string `pong`
and no error gets the reply carrying `pong`. -/
theorem reply_iff_string_or_bool_witness :
    (handle_method_call_callback
        (RegisterMethodCallCallback init "/com/example/Test" "com.example.Test" "Ping"
          (recordingHandler "ping" (GoValue.string "pong") none))
        "/com/example/Test" "com.example.Test" "Ping" []).1
      = some (GVariant.g_variant_new_from_string "pong") :=
  (reply_iff_string_or_bool
    (RegisterMethodCallCallback init "/com/example/Test" "com.example.Test" "Ping"
      (recordingHandler "ping" (GoValue.string "pong") none))
    "/com/example/Test" "com.example.Test" "Ping" []
    (recordingHandler "ping" (GoValue.string "pong") none)
    (lookup_register_self _ _ _ _ _)).2.2.1 "pong" rfl (by decide)

/-- Counterexample to C9: the handler bound to `Ping` registers a handler for
`Pong` while it runs; before the dispatch of `Ping` the key of `Pong` is not
bound, after it the key is bound, so the dispatch changed the table. -/
theorem dispatch_changes_table_through_handler :
    (RegisterMethodCallCallback init "/com/example/Test" "com.example.Test" "Ping"
        (reentrantHandler "ping" (GoValue.bool true) none
          [("/com/example/Test", "com.example.Test", "Pong",
            recordingHandler "pong" (GoValue.bool false) none)])).MethodCallCallbacks
        (keyForPathInterfaceNameAndMethod "/com/example/Test" "com.example.Test" "Pong")
      = none
    ∧ ((Process.call (exampleLib 1 1 none)
          { dbusAPI := RegisterMethodCallCallback init "/com/example/Test" "com.example.Test"
              "Ping"
              (reentrantHandler "ping" (GoValue.bool true) none
                [("/com/example/Test", "com.example.Test", "Pong",
                  recordingHandler "pong" (GoValue.bool false) none)]),
            world := [] }
          (Call.handle_method_call_callback "/com/example/Test" "com.example.Test"
            "Ping")).2.dbusAPI.MethodCallCallbacks
        (keyForPathInterfaceNameAndMethod "/com/example/Test" "com.example.Test"
          "Pong")).isSome = true
    ∧ (Process.call (exampleLib 1 1 none)
          { dbusAPI := RegisterMethodCallCallback init "/com/example/Test" "com.example.Test"
              "Ping"
              (reentrantHandler "ping" (GoValue.bool true) none
                [("/com/example/Test", "com.example.Test", "Pong",
                  recordingHandler "pong" (GoValue.bool false) none)]),
            world := [] }
          (Call.handle_method_call_callback "/com/example/Test" "com.example.Test"
            "Ping")).2.dbusAPI
      ≠ RegisterMethodCallCallback init "/com/example/Test" "com.example.Test" "Ping"
          (reentrantHandler "ping" (GoValue.bool true) none
            [("/com/example/Test", "com.example.Test", "Pong",
              recordingHandler "pong" (GoValue.bool false) none)]) := by
  have hne : keyForPathInterfaceNameAndMethod "/com/example/Test" "com.example.Test" "Pong"
      ≠ keyForPathInterfaceNameAndMethod "/com/example/Test" "com.example.Test" "Ping" := by
    decide
  have h0 : (RegisterMethodCallCallback init "/com/example/Test" "com.example.Test" "Ping"
        (reentrantHandler "ping" (GoValue.bool true) none
          [("/com/example/Test", "com.example.Test", "Pong",
            recordingHandler "pong" (GoValue.bool false) none)])).MethodCallCallbacks
        (keyForPathInterfaceNameAndMethod "/com/example/Test" "com.example.Test" "Pong")
      = none := by
    rw [lookup_register_of_ne _ _ _ _ _ _ hne]
    rfl
  have h1 : ((Process.call (exampleLib 1 1 none)
          { dbusAPI := RegisterMethodCallCallback init "/com/example/Test" "com.example.Test"
              "Ping"
              (reentrantHandler "ping" (GoValue.bool true) none
                [("/com/example/Test", "com.example.Test", "Pong",
                  recordingHandler "pong" (GoValue.bool false) none)]),
            world := [] }
          (Call.handle_method_call_callback "/com/example/Test" "com.example.Test"
            "Ping")).2.dbusAPI.MethodCallCallbacks
        (keyForPathInterfaceNameAndMethod "/com/example/Test" "com.example.Test"
          "Pong")).isSome = true := by
    simp only [Process.call, handle_table, handlerRegistrations, lookup_register_self]
    simp only [MethodCallCallback.call, reentrantHandler, registerAll, lookup_register_self]
    rfl
  refine ⟨h0, h1, ?_⟩
  intro he
  rw [he, h0] at h1
  exact absurd h1 (by decide)

/-- C9, amended: a registration keeps every bound key bound and leaves the
handler of every key other than the registered one unchanged; the table after
a dispatch is the table before with the registrations made by the invoked
handler applied, so it is the table before when no handler is found or the
handler registers nothing, and every bound key stays bound; and a key bound
after some calls from the initial state is still bound after any further
calls. -/
theorem dispatch_table_only_grows {W : Type} (lib : Native W) :
    (∀ (d : dbusAPILibGio W) (path interfaceName method : String)
        (h : MethodCallCallback W) (k : String),
      ((d.MethodCallCallbacks k).isSome = true →
        ((RegisterMethodCallCallback d path interfaceName method h).MethodCallCallbacks
          k).isSome = true)
      ∧ (k ≠ keyForPathInterfaceNameAndMethod path interfaceName method →
        (RegisterMethodCallCallback d path interfaceName method h).MethodCallCallbacks k
          = d.MethodCallCallbacks k))
    ∧ (∀ (s : Process W) (objectPath interfaceName methodName : String),
        (Process.call lib s
          (Call.handle_method_call_callback objectPath interfaceName methodName)).2.dbusAPI
          = registerAll s.dbusAPI
              (handlerRegistrations s.dbusAPI objectPath interfaceName methodName s.world)
        ∧ (handlerRegistrations s.dbusAPI objectPath interfaceName methodName s.world = [] →
          (Process.call lib s
            (Call.handle_method_call_callback objectPath interfaceName methodName)).2.dbusAPI
            = s.dbusAPI)
        ∧ (s.dbusAPI.MethodCallCallbacks
              (keyForPathInterfaceNameAndMethod objectPath interfaceName methodName) = none →
          (Process.call lib s
            (Call.handle_method_call_callback objectPath interfaceName methodName)).2.dbusAPI
            = s.dbusAPI)
        ∧ (∀ k : String, (s.dbusAPI.MethodCallCallbacks k).isSome = true →
          ((Process.call lib s
            (Call.handle_method_call_callback objectPath interfaceName
              methodName)).2.dbusAPI.MethodCallCallbacks k).isSome = true))
    ∧ (∀ (w0 : W) (cs1 cs2 : List (Call W)) (k : String),
        ((Process.run lib (Process.start w0) cs1).dbusAPI.MethodCallCallbacks k).isSome = true →
        ((Process.run lib (Process.start w0) (cs1 ++ cs2)).dbusAPI.MethodCallCallbacks
          k).isSome = true) := by
  refine ⟨?_, ?_, ?_⟩
  · intro d path interfaceName method h k
    exact ⟨lookup_register_isSome d path interfaceName method h k,
      lookup_register_of_ne d path interfaceName method h k⟩
  · intro s objectPath interfaceName methodName
    have ht : (Process.call lib s
          (Call.handle_method_call_callback objectPath interfaceName methodName)).2.dbusAPI
        = registerAll s.dbusAPI
            (handlerRegistrations s.dbusAPI objectPath interfaceName methodName s.world) := by
      simp only [Process.call, handle_table]
    refine ⟨ht, ?_, ?_, ?_⟩
    · intro hn
      rw [ht, hn]
      rfl
    · intro hn
      rw [ht]
      simp only [handlerRegistrations, hn]
      rfl
    · intro k hk
      exact call_lookup_isSome lib s _ k hk
  · intro w0 cs1 cs2 k hk
    rw [run_append]
    exact run_lookup_isSome lib cs2 _ k hk

/-! ## Name ownership and interface registration -/

/-- C6: `BusOwnNameOnConnection` returns an error exactly when the native id is
`<= 0`, which for the unsigned id is `= 0`; with an error the returned id is 0,
without one it is the native id and positive; two calls whose native ids agree
return the same id and error, whatever their connections, names and flags; and
with `DoNotQueue` set and `AllowReplacement` unset a native id 7 is returned as
id 7 without error. -/
theorem own_name_error_iff_native_id_zero {W : Type} (lib : Native W) (conn : Pointer)
    (name : String) (flags : Nat) (w : W) :
    ((BusOwnNameOnConnection lib conn name flags w).1.2 ≠ none
      ↔ (lib.g_bus_own_name_on_connection conn (CString name) (flags % 2 ^ 32) w).1 ≤ 0)
    ∧ ((lib.g_bus_own_name_on_connection conn (CString name) (flags % 2 ^ 32) w).1 ≤ 0
      ↔ (lib.g_bus_own_name_on_connection conn (CString name) (flags % 2 ^ 32) w).1 = 0)
    ∧ ((BusOwnNameOnConnection lib conn name flags w).1.2 ≠ none →
        (BusOwnNameOnConnection lib conn name flags w).1.1 = 0)
    ∧ ((BusOwnNameOnConnection lib conn name flags w).1.2 = none →
        (BusOwnNameOnConnection lib conn name flags w).1.1
            = (lib.g_bus_own_name_on_connection conn (CString name) (flags % 2 ^ 32) w).1
          ∧ 0 < (BusOwnNameOnConnection lib conn name flags w).1.1)
    ∧ (∀ (lib2 : Native W) (conn2 : Pointer) (name2 : String) (flags2 : Nat) (w2 : W),
        (lib2.g_bus_own_name_on_connection conn2 (CString name2) (flags2 % 2 ^ 32) w2).1
            = (lib.g_bus_own_name_on_connection conn (CString name) (flags % 2 ^ 32) w).1 →
          (BusOwnNameOnConnection lib2 conn2 name2 flags2 w2).1
            = (BusOwnNameOnConnection lib conn name flags w).1)
    ∧ (BusOwnNameOnConnection (exampleLib 7 1 none) 1 "com.example.Test"
          DBusNameOwnerFlagsDoNotQueue []).1 = (7, none) := by
  refine ⟨?_, ?_, ?_, ?_, ?_, ?_⟩
  · simp only [BusOwnNameOnConnection]
    split <;> simp_all
  · omega
  · simp only [BusOwnNameOnConnection]
    split <;> simp_all
  · simp only [BusOwnNameOnConnection]
    split
    · simp
    · rename_i hg
      intro _
      exact ⟨rfl, Nat.lt_of_not_le hg⟩
  · intro lib2 conn2 name2 flags2 w2 hg
    simp only [BusOwnNameOnConnection]
    by_cases h0 : (lib.g_bus_own_name_on_connection conn (CString name) (flags % 2 ^ 32) w).1 ≤ 0
    · have h2 : (lib2.g_bus_own_name_on_connection conn2 (CString name2) (flags2 % 2 ^ 32) w2).1 ≤ 0 := by
        rw [hg]; exact h0
      rw [if_pos h0, if_pos h2, hg]
    · have h2 : ¬ (lib2.g_bus_own_name_on_connection conn2 (CString name2) (flags2 % 2 ^ 32) w2).1 ≤ 0 := by
        rw [hg]; exact h0
      rw [if_neg h0, if_neg h2, hg]
  · rfl

/-- C7: when the introspection parser reports an error for the XML,
`BusRegisterInterface` returns id 0 with that error and the outside state
untouched, it does so whatever the native register-object operation is (it is
never called), and as a call on the process it leaves the whole state, dispatch
table included, as it was. -/
theorem register_interface_parse_error {W : Type} (lib : Native W) (conn : Pointer)
    (path : String) (interfaceXML : String) (gerror : GError) (s : Process W)
    (hx : lib.g_dbus_node_info_new_for_xml (CString interfaceXML) = Except.error gerror) :
    BusRegisterInterface lib conn path interfaceXML s.world
      = ((0, some (lib.ErrorFromNative gerror)), s.world)
    ∧ (∀ reg : Pointer → String → Option GDBusInterfaceInfo → W → (Nat × Option GError) × W,
        BusRegisterInterface
            { g_bus_own_name_on_connection := lib.g_bus_own_name_on_connection,
              g_dbus_node_info_new_for_xml := lib.g_dbus_node_info_new_for_xml,
              g_dbus_connection_register_object := reg,
              ErrorFromNative := lib.ErrorFromNative }
            conn path interfaceXML s.world
          = ((0, some (lib.ErrorFromNative gerror)), s.world))
    ∧ Process.call lib s (Call.BusRegisterInterface conn path interfaceXML)
      = (Returned.id (0, some (lib.ErrorFromNative gerror)), s) := by
  have h1 : BusRegisterInterface lib conn path interfaceXML s.world
      = ((0, some (lib.ErrorFromNative gerror)), s.world) := by
    simp only [BusRegisterInterface, hx]
  refine ⟨h1, ?_, ?_⟩
  · intro reg
    simp only [BusRegisterInterface, hx]
  · simp only [Process.call, h1]

/-- Witness of C7: an XML document with an unterminated tag, on a process whose
table holds a `Ping` handler; the call returns id 0 with the parser's error and
the state (table and log of native calls) is the one before. -/
theorem register_interface_parse_error_witness :
    Process.call (exampleLib 1 1 none)
        { dbusAPI := RegisterMethodCallCallback init "/com/example/Test" "com.example.Test"
            "Ping" (recordingHandler "ping" (GoValue.bool true) none),
          world := [] }
        (Call.BusRegisterInterface 1 "/com/example/Test" "<node><interface name=")
      = (Returned.id (0, some ⟨"malformed document"⟩),
          { dbusAPI := RegisterMethodCallCallback init "/com/example/Test" "com.example.Test"
              "Ping" (recordingHandler "ping" (GoValue.bool true) none),
            world := [] }) :=
  (register_interface_parse_error (exampleLib 1 1 none) 1 "/com/example/Test"
    "<node><interface name=" { message := "malformed document", domain := 1, code := 2 }
    { dbusAPI := RegisterMethodCallCallback init "/com/example/Test" "com.example.Test"
        "Ping" (recordingHandler "ping" (GoValue.bool true) none),
      world := [] }
    rfl).2.2

/-- C8: when the XML parses, `BusRegisterInterface` returns id 0 with an error if
the native register-object operation reports an error or reports none but
answers an id `<= 0`, and otherwise returns the native id with no error; a
native error is returned through `ErrorFromNative`; the outside state is the one
the native operation leaves; and for every XML the call returns no error
exactly when the returned id is positive. -/
theorem register_interface_result {W : Type} (lib : Native W) (conn : Pointer)
    (path : String) (interfaceXML : String) (w : W) (nodeInfo : GDBusNodeInfo)
    (hx : lib.g_dbus_node_info_new_for_xml (CString interfaceXML) = Except.ok nodeInfo) :
    (((lib.g_dbus_connection_register_object conn (CString path) nodeInfo.interfaces.head? w).1.2 ≠ none
        ∨ (lib.g_dbus_connection_register_object conn (CString path) nodeInfo.interfaces.head? w).1.1 ≤ 0) →
      (BusRegisterInterface lib conn path interfaceXML w).1.1 = 0
        ∧ (BusRegisterInterface lib conn path interfaceXML w).1.2 ≠ none)
    ∧ (¬ ((lib.g_dbus_connection_register_object conn (CString path) nodeInfo.interfaces.head? w).1.2 ≠ none
        ∨ (lib.g_dbus_connection_register_object conn (CString path) nodeInfo.interfaces.head? w).1.1 ≤ 0) →
      (BusRegisterInterface lib conn path interfaceXML w).1
        = ((lib.g_dbus_connection_register_object conn (CString path) nodeInfo.interfaces.head? w).1.1,
            none))
    ∧ (∀ gerror,
        (lib.g_dbus_connection_register_object conn (CString path) nodeInfo.interfaces.head? w).1.2
            = some gerror →
          (BusRegisterInterface lib conn path interfaceXML w).1
            = (0, some (lib.ErrorFromNative gerror)))
    ∧ (BusRegisterInterface lib conn path interfaceXML w).2
        = (lib.g_dbus_connection_register_object conn (CString path) nodeInfo.interfaces.head? w).2
    ∧ (∀ xml : String,
        (BusRegisterInterface lib conn path xml w).1.2 = none
          ↔ 0 < (BusRegisterInterface lib conn path xml w).1.1) := by
  refine ⟨?_, ?_, ?_, ?_, ?_⟩
  · simp only [BusRegisterInterface, hx]
    rcases lib.g_dbus_connection_register_object conn (CString path) nodeInfo.interfaces.head? w
      with ⟨⟨gid, _ | ge⟩, w1⟩
    · simp only [ne_eq, not_true_eq_false, false_or]
      intro hg
      simp [hg]
    · simp
  · simp only [BusRegisterInterface, hx]
    rcases lib.g_dbus_connection_register_object conn (CString path) nodeInfo.interfaces.head? w
      with ⟨⟨gid, _ | ge⟩, w1⟩
    · simp only [ne_eq, not_true_eq_false, false_or]
      intro hg
      simp [hg]
    · simp
  · intro gerror
    simp only [BusRegisterInterface, hx]
    rcases lib.g_dbus_connection_register_object conn (CString path) nodeInfo.interfaces.head? w
      with ⟨⟨gid, _ | ge⟩, w1⟩
    · simp
    · simp only [Option.some.injEq]
      intro hg
      rw [hg]
  · simp only [BusRegisterInterface, hx]
    rcases lib.g_dbus_connection_register_object conn (CString path) nodeInfo.interfaces.head? w
      with ⟨⟨gid, _ | ge⟩, w1⟩
    · dsimp only
      split <;> rfl
    · rfl
  · intro xml
    simp only [BusRegisterInterface]
    cases lib.g_dbus_node_info_new_for_xml (CString xml) with
    | error ge => simp
    | ok ni =>
      dsimp only
      rcases lib.g_dbus_connection_register_object conn (CString path) ni.interfaces.head? w
        with ⟨⟨gid, _ | ge⟩, w1⟩
      · dsimp only
        split
        · simp
        · simp only [true_iff]
          omega
      · simp

/-- Witness of C8: a document that parses, the native operation answering id 0
without an error; the call returns id 0 and an error. -/
theorem register_interface_result_witness :
    (BusRegisterInterface (exampleLib 1 0 none) 1 "/com/example/Test" "<node></node>" []).1.1 = 0
      ∧ (BusRegisterInterface (exampleLib 1 0 none) 1 "/com/example/Test" "<node></node>"
          []).1.2 ≠ none :=
  (register_interface_result (exampleLib 1 0 none) 1 "/com/example/Test" "<node></node>" []
    { interfaces := [{ name := "com.example.Test", methods := ["Ping"] }] }
    rfl).1 (Or.inr (Nat.le_refl 0))

/-- C10: on triples in which neither interface name contains `/` and neither
method name contains `.`, equal dispatch keys come only from equal triples,
whatever the paths contain. -/
theorem key_injective_on_separator_free (p1 i1 m1 p2 i2 m2 : String)
    (hi1 : '/' ∉ i1.data) (hi2 : '/' ∉ i2.data)
    (hm1 : '.' ∉ m1.data) (hm2 : '.' ∉ m2.data) :
    keyForPathInterfaceNameAndMethod p1 i1 m1 = keyForPathInterfaceNameAndMethod p2 i2 m2 →
      p1 = p2 ∧ i1 = i2 ∧ m1 = m2 :=
  fun h => key_inj_of_separator_free p1 i1 m1 p2 i2 m2 hi1 hi2 hm1 hm2 h

/-- Witness of C10: the key of `("/com/example/Test", "com.example.Test", "Ping")`
compared with itself, the path holding both separators. -/
theorem key_injective_on_separator_free_witness :
    "/com/example/Test" = "/com/example/Test" ∧ "com.example.Test" = "com.example.Test"
      ∧ "Ping" = "Ping" :=
  key_injective_on_separator_free "/com/example/Test" "com.example.Test" "Ping"
    "/com/example/Test" "com.example.Test" "Ping"
    (by decide) (by decide) (by decide) (by decide) rfl

/-- Counterexample to C3: two distinct triples with the same dispatch key
`/com/example/Test/com.example.Test.Ping`; the second method name holds a `.`. -/
theorem key_collision :
    keyForPathInterfaceNameAndMethod "/com/example/Test" "com.example.Test" "Ping"
        = keyForPathInterfaceNameAndMethod "/com/example/Test" "com.example" "Test.Ping"
      ∧ ¬ ("/com/example/Test" = "/com/example/Test" ∧ "com.example.Test" = "com.example"
            ∧ "Ping" = "Test.Ping") := by
  refine ⟨by decide, ?_⟩
  intro h
  exact absurd h.2.2 (by decide)

/-- C3, amended: the dispatch key is a function of its three arguments (equal
arguments give equal keys), and on triples whose interface names contain no `/`
and whose method names contain no `.` two keys are equal exactly when the
triples are equal. -/
theorem key_deterministic_and_injective_on_names (p1 i1 m1 p2 i2 m2 : String)
    (hi1 : '/' ∉ i1.data) (hi2 : '/' ∉ i2.data)
    (hm1 : '.' ∉ m1.data) (hm2 : '.' ∉ m2.data) :
    (keyForPathInterfaceNameAndMethod p1 i1 m1 = keyForPathInterfaceNameAndMethod p2 i2 m2
      ↔ (p1, i1, m1) = (p2, i2, m2)) := by
  constructor
  · intro h
    obtain ⟨hp, hi, hm⟩ := key_inj_of_separator_free p1 i1 m1 p2 i2 m2 hi1 hi2 hm1 hm2 h
    rw [hp, hi, hm]
  · intro h
    simp only [Prod.mk.injEq] at h
    rw [h.1, h.2.1, h.2.2]

/-- Witness of the amended C3: `Ping` and `Pong` on the same object and
interface have different keys. -/
theorem key_deterministic_and_injective_on_names_witness :
    (keyForPathInterfaceNameAndMethod "/com/example/Test" "com.example.Test" "Ping"
        = keyForPathInterfaceNameAndMethod "/com/example/Test" "com.example.Test" "Pong"
      ↔ ("/com/example/Test", "com.example.Test", "Ping")
          = ("/com/example/Test", "com.example.Test", "Pong")) :=
  key_deterministic_and_injective_on_names "/com/example/Test" "com.example.Test" "Ping"
    "/com/example/Test" "com.example.Test" "Pong"
    (by decide) (by decide) (by decide) (by decide)

end dbus
